import Mathlib

/-!
Shallow embedding of the lavago Lavalink client (Go repository nemphi/lavago).

Conventions of the embedding:
* `time.Duration` values are modelled as integers (`Int` for payload fields,
  `Nat` for the non-negative sleep intervals accumulated by the socket).
* Go `error` results built with `errors.New` / `fmt.Errorf` are modelled by the
  typed enumeration `GoErr`; `nil` errors are `Option.none`.
* Nullable Go pointers (`*Track`, `*websocket.Conn`) are modelled with `Option`
  or with an explicit open flag.
* The `sync.Map` registries are modelled as association lists with the
  Load / Store / Delete operations used by the source.
* Outbound frames are modelled at the JSON level: `encoding/json` marshalling
  of a payload struct is a list of key/value pairs produced field by field,
  honouring the struct tags (key renames and `omitempty`) of `payloads.go`.
* Effects on the websocket are modelled by explicit state passing: a `SendEnv`
  carries the connected flag and the ordered log of frames handed to the
  connection.
-/

namespace Lavago

/-- Typed stand-ins for the error values the Go code constructs with
`errors.New` / `fmt.Errorf`, plus a constructor for errors produced by
external collaborators (the websocket dialer, the voice-join callback). -/
inductive GoErr where
  /-- socket.go: "websocket is already in open state" -/
  | alreadyOpen
  /-- socket.go: strconv.Atoi failure on the Lavalink-Api-Version header -/
  | atoiFail
  /-- socket.go: "this version of lavago only supports Lavalink v3.x" -/
  | badVersion
  /-- socket.go Send: "cant send, no connection open" -/
  | sendNotConnected
  /-- socket.go Send: "cant send no data" -/
  | sendEmpty
  /-- player.go Play / PlayTrack: "cant play nil Track" -/
  | nilTrack
  /-- player.go Play: "cant play with volume < 0" -/
  | volumeUnder
  /-- player.go Play: "cant play with volume > 1000" -/
  | volumeOver
  /-- player.go Pause / Resume / Skip / Seek: state is None -/
  | playerNotReady
  /-- player.go Seek: "value must not be higer than ..." -/
  | seekTooFar
  /-- node Join: "cant join on non-connected node" -/
  | joinNotConnected
  /-- node Join: "cant join (empty string) voice channel" -/
  | joinEmptyChannel
  /-- node Leave: "cant leave on non-connected node" -/
  | leaveNotConnected
  /-- an error value coming from outside the repository (dialer, voice join) -/
  | external (tag : String)
deriving DecidableEq, Repr

/-! ## Config (config.go) — only the fields read by the embedded functions -/

/-- Config for a Node (config.go); restricted to the fields the embedded
operations read. -/
structure Config where
  /-- How many reconnect attempts are allowed. -/
  ReconnectAttempts : Nat
  /-- Reconnection delay for retrying websocket connection (a duration). -/
  ReconnectDelay : Nat
deriving DecidableEq, Repr

/-! ## Socket (socket.go) -/

/-- The mutable fields of `Socket` that `Connect` reads and writes.
`connOpen` models `s.conn != nil`. -/
structure SocketState where
  connectionAttempts : Nat
  reconnectInterval : Nat
  connOpen : Bool
  connected : Bool
deriving DecidableEq, Repr

/-- The state of a socket fresh out of `NewSocket`: Go zero values, and the
source comment explains that `reconnectInterval` deliberately starts at 0
because `Connect` adds `cfg.ReconnectDelay` to it on every retry. -/
def NewSocketState : SocketState :=
  { connectionAttempts := 0, reconnectInterval := 0, connOpen := false, connected := false }

/-- Result of one `dialer.Dial` call: either a transport error, or a
connection together with the `Lavalink-Api-Version` response header. -/
inductive DialResult where
  | fail (err : GoErr)
  | ok (lavalinkApiVersionHeader : String)
deriving DecidableEq, Repr

/-- Everything observable about one `Socket.Connect` call: the returned error
(`Option.none` on success), the socket state afterwards, and the ordered list
of `time.Sleep` durations performed. -/
structure ConnectResult where
  outcome : Option GoErr
  state : SocketState
  sleeps : List Nat
deriving DecidableEq, Repr

/-- `Socket.Connect` (socket.go lines 52-80).  The dialer is modelled as an
oracle `dial` indexed by the call number `callIdx` (the initial call is 0 and
each recursive retry increments it).  On dial failure with budget remaining it
increments `connectionAttempts`, grows `reconnectInterval` by the configured
delay, sleeps the grown interval and recurses; with the budget exhausted it
returns the dial error.  On dial success it parses the version header with
`strconv.Atoi`, rejects versions other than 3, and otherwise marks the socket
open and connected. -/
def Socket.Connect (cfg : Config) (dial : Nat → DialResult) (callIdx : Nat)
    (s : SocketState) : ConnectResult :=
  if s.connOpen then { outcome := some GoErr.alreadyOpen, state := s, sleeps := [] }
  else
    match dial callIdx with
    | DialResult.fail e =>
      if h : s.connectionAttempts < cfg.ReconnectAttempts then
        let s1 : SocketState :=
          { s with connectionAttempts := s.connectionAttempts + 1,
                   reconnectInterval := s.reconnectInterval + cfg.ReconnectDelay }
        let r := Socket.Connect cfg dial (callIdx + 1) s1
        { r with sleeps := s1.reconnectInterval :: r.sleeps }
      else { outcome := some e, state := s, sleeps := [] }
    | DialResult.ok lverS =>
      match lverS.toInt? with
      | Option.none => { outcome := some GoErr.atoiFail, state := s, sleeps := [] }
      | some lver =>
        if lver ≠ 3 then { outcome := some GoErr.badVersion, state := s, sleeps := [] }
        else { outcome := Option.none,
               state := { s with connOpen := true, connected := true }, sleeps := [] }
termination_by cfg.ReconnectAttempts - s.connectionAttempts
decreasing_by simp_wf; omega

/-! ## JSON marshalling of the outbound payload structs (payloads.go)

`encoding/json` output is modelled as the ordered list of keys the marshaller
emits.  A field with an `omitempty` tag is skipped when it holds the Go zero
value of its type ("" / 0 / false).  The marshalled form of a struct is never
the empty byte string (it is at least the two bytes of an empty JSON object),
a fact the `Socket.Send` model relies on. -/

/-- A JSON scalar value appearing in an outbound frame. -/
inductive JVal where
  | str (s : String)
  | int (n : Int)
  | bool (b : Bool)
deriving DecidableEq, Repr

/-- One marshalled outbound frame: the ordered key/value pairs of the JSON
object. -/
abbrev Frame := List (String × JVal)

structure playerPlayPayload where
  Op : String
  GuildID : String
  Track : String
  NoReplace : Bool
  StartTime : Int
  EndTime : Int
  Volume : Int
  Pause : Bool
deriving DecidableEq, Repr

/-- Marshal `playerPlayPayload`: tags `op,omitempty`, `guildId,omitempty`,
`track,omitempty`, `noReplace,omitempty`, `startTime,omitempty`,
`endTime,omitempty`, `volume,omitempty`, `pause,omitempty`. -/
def playerPlayPayload.marshal (p : playerPlayPayload) : Frame :=
  (if p.Op = "" then [] else [("op", JVal.str p.Op)]) ++
  (if p.GuildID = "" then [] else [("guildId", JVal.str p.GuildID)]) ++
  (if p.Track = "" then [] else [("track", JVal.str p.Track)]) ++
  (if p.NoReplace = false then [] else [("noReplace", JVal.bool p.NoReplace)]) ++
  (if p.StartTime = 0 then [] else [("startTime", JVal.int p.StartTime)]) ++
  (if p.EndTime = 0 then [] else [("endTime", JVal.int p.EndTime)]) ++
  (if p.Volume = 0 then [] else [("volume", JVal.int p.Volume)]) ++
  (if p.Pause = false then [] else [("pause", JVal.bool p.Pause)])

structure playerStopPayload where
  Op : String
  GuildID : String
deriving DecidableEq, Repr

/-- Marshal `playerStopPayload`: tags `op,omitempty`, `guildId,omitempty`. -/
def playerStopPayload.marshal (p : playerStopPayload) : Frame :=
  (if p.Op = "" then [] else [("op", JVal.str p.Op)]) ++
  (if p.GuildID = "" then [] else [("guildId", JVal.str p.GuildID)])

structure playerPausePayload where
  Op : String
  GuildID : String
  Pause : Bool
deriving DecidableEq, Repr

/-- Marshal `playerPausePayload`: tags `op,omitempty`, `guildId,omitempty`,
`pause,omitempty`. -/
def playerPausePayload.marshal (p : playerPausePayload) : Frame :=
  (if p.Op = "" then [] else [("op", JVal.str p.Op)]) ++
  (if p.GuildID = "" then [] else [("guildId", JVal.str p.GuildID)]) ++
  (if p.Pause = false then [] else [("pause", JVal.bool p.Pause)])

structure playerSeekPayload where
  Op : String
  GuildID : String
  Position : Int
deriving DecidableEq, Repr

/-- Marshal `playerSeekPayload`: tags `op,omitempty`, `guildId,omitempty`,
`position,omitempty`. -/
def playerSeekPayload.marshal (p : playerSeekPayload) : Frame :=
  (if p.Op = "" then [] else [("op", JVal.str p.Op)]) ++
  (if p.GuildID = "" then [] else [("guildId", JVal.str p.GuildID)]) ++
  (if p.Position = 0 then [] else [("position", JVal.int p.Position)])

structure playerVolumePayload where
  Op : String
  GuildID : String
  Volume : Int
deriving DecidableEq, Repr

/-- Marshal `playerVolumePayload`.  The struct tags in payloads.go are
`op,omitempty`, `guildId,omitempty` and — on the `Volume` field —
`position,omitempty`: the volume value is serialized under the JSON key
`position`, exactly as the source has it. -/
def playerVolumePayload.marshal (p : playerVolumePayload) : Frame :=
  (if p.Op = "" then [] else [("op", JVal.str p.Op)]) ++
  (if p.GuildID = "" then [] else [("guildId", JVal.str p.GuildID)]) ++
  (if p.Volume = 0 then [] else [("position", JVal.int p.Volume)])

structure playerDestroyPayload where
  Op : String
  GuildID : String
deriving DecidableEq, Repr

/-- Marshal `playerDestroyPayload`: tags `op,omitempty`, `guildId,omitempty`. -/
def playerDestroyPayload.marshal (p : playerDestroyPayload) : Frame :=
  (if p.Op = "" then [] else [("op", JVal.str p.Op)]) ++
  (if p.GuildID = "" then [] else [("guildId", JVal.str p.GuildID)])

/-! ## Sending over the socket -/

/-- The part of the connected socket that the Player / Node operations
observe: the connected flag and the ordered log of frames handed to the
write-serializer. -/
structure SendEnv where
  connected : Bool
  sent : List Frame
deriving DecidableEq, Repr

/-- `Socket.Send` (socket.go lines 101-113) applied to a marshalled frame.
It fails when the socket is not connected; the zero-length check of the
source can never fire here because the marshalled JSON of a struct is at
least the two bytes of an empty object.  On the success path the frame is
handed to the write-serializer in submission order. -/
def Socket.Send (e : SendEnv) (data : Frame) : Option GoErr × SendEnv :=
  if e.connected = false then (some GoErr.sendNotConnected, e)
  else (Option.none, { e with sent := e.sent ++ [data] })

/-! ## Track and Player (player.go, track definitions) -/

structure TrackInfo where
  Identifier : String
  Author : String
  Title : String
  CanSeek : Bool
  Length : Int
  IsStream : Bool
  Position : Int
  URL : String
  SourceName : String
deriving DecidableEq, Repr

structure Track where
  Track : String
  Info : TrackInfo
deriving DecidableEq, Repr

/-- `(*Track).updatePosition` -/
def Track.updatePosition (t : Lavago.Track) (pos : Int) : Lavago.Track :=
  { t with Info := { t.Info with Position := pos } }

/-- Describes the status of a Player (player.go).  The constructor names keep
the Go constant names; `PlayerStateNone` is the zero value. -/
inductive PlayerState where
  | PlayerStateNone
  | PlayerStatePlaying
  | PlayerStateStopped
  | PlayerStatePaused
deriving DecidableEq, Repr

/-- Arguments for `Player.Play`. -/
structure PlayArgs where
  Track : Option Lavago.Track
  NoReplace : Bool
  Volume : Int
  ShouldPause : Bool
  StartTime : Int
  EndTime : Int
deriving DecidableEq, Repr

/-- The mutable fields of a `Player`.  The `socket` pointer of the source is
factored out: the operations below thread the shared `SendEnv` explicitly. -/
structure Player where
  LastUpdate : Int
  State : PlayerState
  Queue : List Lavago.Track
  Track : Option Lavago.Track
  GuildID : String
  Volume : Int
deriving DecidableEq, Repr

/-- `NewPlayer` (player.go lines 64-70): a fresh arraylist queue, the given
guild id, and Go zero values everywhere else — in particular the state is
`PlayerStateNone` and the current track is nil. -/
def NewPlayer (guildID : String) : Player :=
  { LastUpdate := 0, State := PlayerState.PlayerStateNone, Queue := [],
    Track := Option.none, GuildID := guildID, Volume := 0 }

/-- `Player.Play` (player.go lines 91-126).  Order of effects is exactly the
source: nil-track check; set state (Paused / Playing per the pause flag);
volume lower bound; volume upper bound; store volume and track; marshal the
`play` payload; send. -/
def Player.Play (p : Player) (args : PlayArgs) (e : SendEnv) :
    Option GoErr × Player × SendEnv :=
  match args.Track with
  | Option.none => (some GoErr.nilTrack, p, e)
  | some tr =>
    let p1 := { p with State := if args.ShouldPause then PlayerState.PlayerStatePaused
                                else PlayerState.PlayerStatePlaying }
    if args.Volume < 0 then (some GoErr.volumeUnder, p1, e)
    else if args.Volume > 1000 then (some GoErr.volumeOver, p1, e)
    else
      let p2 := { p1 with Volume := args.Volume, Track := some tr }
      let data := playerPlayPayload.marshal
        { Op := "play", GuildID := p2.GuildID, Track := tr.Track,
          NoReplace := args.NoReplace, StartTime := args.StartTime,
          EndTime := args.EndTime, Volume := args.Volume, Pause := args.ShouldPause }
      let r := Socket.Send e data
      (r.1, p2, r.2)

/-- `Player.PlayTrack` (player.go lines 129-148): state to Playing, store the
track, send a `play` payload with volume 100 and pause false. -/
def Player.PlayTrack (p : Player) (track : Option Lavago.Track) (e : SendEnv) :
    Option GoErr × Player × SendEnv :=
  match track with
  | Option.none => (some GoErr.nilTrack, p, e)
  | some tr =>
    let p1 := { p with State := PlayerState.PlayerStatePlaying, Track := some tr }
    let data := playerPlayPayload.marshal
      { Op := "play", GuildID := p1.GuildID, Track := tr.Track,
        NoReplace := false, StartTime := 0, EndTime := 0, Volume := 100, Pause := false }
    let r := Socket.Send e data
    (r.1, p1, r.2)

/-- `Player.Stop` (player.go lines 151-163): state to Stopped, send a `stop`
payload, propagate only the send error. -/
def Player.Stop (p : Player) (e : SendEnv) : Option GoErr × Player × SendEnv :=
  let p1 := { p with State := PlayerState.PlayerStateStopped }
  let data := playerStopPayload.marshal { Op := "stop", GuildID := p1.GuildID }
  let r := Socket.Send e data
  (r.1, p1, r.2)

/-- `Player.Pause` (player.go lines 166-186): error when state is None;
otherwise state becomes Stopped when no track is loaded and Paused when one
is, then a `pause` payload with flag true is sent. -/
def Player.Pause (p : Player) (e : SendEnv) : Option GoErr × Player × SendEnv :=
  if p.State = PlayerState.PlayerStateNone then (some GoErr.playerNotReady, p, e)
  else
    let p1 := { p with State := if p.Track = Option.none then PlayerState.PlayerStateStopped
                                else PlayerState.PlayerStatePaused }
    let data := playerPausePayload.marshal
      { Op := "pause", GuildID := p1.GuildID, Pause := true }
    let r := Socket.Send e data
    (r.1, p1, r.2)

/-- `Player.Resume` (player.go lines 189-209): like Pause but the state
becomes Playing when a track is loaded and the pause flag sent is false. -/
def Player.Resume (p : Player) (e : SendEnv) : Option GoErr × Player × SendEnv :=
  if p.State = PlayerState.PlayerStateNone then (some GoErr.playerNotReady, p, e)
  else
    let p1 := { p with State := if p.Track = Option.none then PlayerState.PlayerStateStopped
                                else PlayerState.PlayerStatePlaying }
    let data := playerPausePayload.marshal
      { Op := "pause", GuildID := p1.GuildID, Pause := false }
    let r := Socket.Send e data
    (r.1, p1, r.2)

/-- `Player.Skip` (player.go lines 212-231).  Returns, in order: the skipped
track, the next (current) track, the error, and the updated player and send
environment.  With state None it errors; with an empty queue it stops
playback and returns no next track; otherwise it pops the FIFO head, sleeps
the delay (no state effect) and plays the popped track. -/
def Player.Skip (p : Player) (delay : Int) (e : SendEnv) :
    Option Lavago.Track × Option Lavago.Track × Option GoErr × Player × SendEnv :=
  if p.State = PlayerState.PlayerStateNone then
    (Option.none, Option.none, some GoErr.playerNotReady, p, e)
  else
    let skipped := p.Track
    match p.Queue with
    | [] =>
      let r := Player.Stop p e
      (skipped, Option.none, r.1, r.2.1, r.2.2)
    | current :: rest =>
      let p1 := { p with Queue := rest }
      let r := Player.PlayTrack p1 (some current) e
      (skipped, some current, r.1, r.2.1, r.2.2)

/-- Outcome of a `Player.Seek` call.  `nilDeref` models the Go runtime panic
raised when `p.Track.Info.Length` is read while `p.Track` is nil — the source
has no guard between the state check and that dereference. -/
inductive SeekOutcome where
  | err (e : GoErr)
  | nilDeref
  | ok
deriving DecidableEq, Repr

/-- `Player.Seek` (player.go lines 234-250): error when state is None; then
`position > p.Track.Info.Length` is evaluated with no nil check on the track,
so a nil current track is a runtime nil dereference rather than a typed
error; an in-bounds position sends a `seek` payload. -/
def Player.Seek (p : Player) (position : Int) (e : SendEnv) :
    SeekOutcome × Player × SendEnv :=
  if p.State = PlayerState.PlayerStateNone then (SeekOutcome.err GoErr.playerNotReady, p, e)
  else
    match p.Track with
    | Option.none => (SeekOutcome.nilDeref, p, e)
    | some tr =>
      if position > tr.Info.Length then (SeekOutcome.err GoErr.seekTooFar, p, e)
      else
        let data := playerSeekPayload.marshal
          { Op := "seek", GuildID := p.GuildID, Position := position }
        let r := Socket.Send e data
        (match r.1 with | Option.none => SeekOutcome.ok | some er => SeekOutcome.err er, p, r.2)

/-- `Player.UpdateVolume` (player.go lines 253-266): unconditionally stores
the new volume (no bounds check) and sends the marshalled
`playerVolumePayload`. -/
def Player.UpdateVolume (p : Player) (volume : Int) (e : SendEnv) :
    Option GoErr × Player × SendEnv :=
  let p1 := { p with Volume := volume }
  let data := playerVolumePayload.marshal
    { Op := "volume", GuildID := p1.GuildID, Volume := volume }
  let r := Socket.Send e data
  (r.1, p1, r.2)

/-- `Player.Close` (player.go lines 72-88): stop (its error is discarded),
send a `destroy` payload, clear queue, clear track, reset state to None, and
return the destroy-send error. -/
def Player.Close (p : Player) (e : SendEnv) : Option GoErr × Player × SendEnv :=
  let rstop := Player.Stop p e
  let p1 := rstop.2.1
  let e1 := rstop.2.2
  let data := playerDestroyPayload.marshal { Op := "destroy", GuildID := p1.GuildID }
  let r := Socket.Send e1 data
  (r.1, { p1 with Queue := [], Track := Option.none, State := PlayerState.PlayerStateNone }, r.2)

/-! ## The sync.Map player registry -/

/-- `sync.Map.Load`. -/
def syncMapLoad {α : Type} (m : List (String × α)) (k : String) : Option α :=
  match m.find? (fun kv => kv.1 == k) with
  | some kv => some kv.2
  | Option.none => Option.none

/-- `sync.Map.Store`: the entry for `k` is replaced (modelled by filtering out
every old binding of `k` and prepending the new one; only Load / Store /
Delete observe the registry). -/
def syncMapStore {α : Type} (m : List (String × α)) (k : String) (v : α) :
    List (String × α) :=
  (k, v) :: m.filter (fun kv => kv.1 != k)

/-- `sync.Map.Delete`. -/
def syncMapDelete {α : Type} (m : List (String × α)) (k : String) :
    List (String × α) :=
  m.filter (fun kv => kv.1 != k)

/-! ## Node (dispatcher) -/

/-- The dispatcher state.  The function-valued callback fields of the source
are modelled by their nil-ness: `hasX = true` means a subscriber / the voice
collaborator is registered. -/
structure Node where
  connected : Bool
  players : List (String × Player)
  hasConnectVoice : Bool
  hasPlayerUpdated : Bool
  hasStatsReceived : Bool
  hasTrackStarted : Bool
  hasTrackEnded : Bool
  hasTrackException : Bool
  hasTrackStuck : Bool
  hasWebSocketClosed : Bool
deriving DecidableEq, Repr

/-- Result of `Node.Join`: the returned player (nil on error), the error, the
node afterwards, and whether the external `ConnectVoice` collaborator was
invoked. -/
structure JoinResult where
  player : Option Player
  err : Option GoErr
  node : Node
  voiceInvoked : Bool
deriving DecidableEq, Repr

/-- `Node.Join` (node source lines 178-200).  `connectVoiceResult` is the
error the external `ConnectVoice` collaborator would return if invoked.
Not-connected and empty-channel checks come first; an existing player for the
guild is returned unchanged; otherwise the voice collaborator is invoked when
registered, and on success a fresh player is created and stored. -/
def Node.Join (n : Node) (guildID voiceChannelID : String)
    (connectVoiceResult : Option GoErr) : JoinResult :=
  if n.connected = false then
    { player := Option.none, err := some GoErr.joinNotConnected, node := n, voiceInvoked := false }
  else if voiceChannelID = "" then
    { player := Option.none, err := some GoErr.joinEmptyChannel, node := n, voiceInvoked := false }
  else
    match syncMapLoad n.players guildID with
    | some p => { player := some p, err := Option.none, node := n, voiceInvoked := false }
    | Option.none =>
      if n.hasConnectVoice then
        match connectVoiceResult with
        | some er => { player := Option.none, err := some er, node := n, voiceInvoked := true }
        | Option.none =>
          let p := NewPlayer guildID
          { player := some p, err := Option.none,
            node := { n with players := syncMapStore n.players guildID p },
            voiceInvoked := true }
      else
        let p := NewPlayer guildID
        { player := some p, err := Option.none,
          node := { n with players := syncMapStore n.players guildID p },
          voiceInvoked := false }

/-- `Node.Leave` (node source lines 202-214): not-connected check; a missing
player is a silent no-op; otherwise the player is closed (sending stop and
destroy frames) and its registry entry deleted, propagating the close
error. -/
def Node.Leave (n : Node) (guildID : String) (e : SendEnv) :
    Option GoErr × Node × SendEnv :=
  if n.connected = false then (some GoErr.leaveNotConnected, n, e)
  else
    match syncMapLoad n.players guildID with
    | Option.none => (Option.none, n, e)
    | some p =>
      let r := Player.Close p e
      (r.1, { n with players := syncMapDelete n.players guildID }, r.2.2)

/-! ## Inbound frame dispatch (Node.socketDataReceived) -/

/-- The event-type discriminator strings of the wire protocol. -/
def trackStartEvent : String := "TrackStartEvent"

def trackEndEvent : String := "TrackEndEvent"

def trackExceptionEvent : String := "TrackExceptionEvent"

def trackStuckEvent : String := "TrackStuckEvent"

def webSocketClosedEvent : String := "WebSocketClosedEvent"

/-- `TrackEndReason` is a byte in the source; single-character reason codes. -/
abbrev TrackEndReason := Char

def FinishedReason : TrackEndReason := 'F'

def LoadFailedReason : TrackEndReason := 'L'

def StoppedReason : TrackEndReason := 'S'

def ReplacedReason : TrackEndReason := 'R'

def CleanupReason : TrackEndReason := 'C'

/-- The decoded fields of an inbound frame that unmarshalled successfully:
the union of `basePayload` and `recvDataEventPayload`, plus the nested
`state` object of a `playerUpdate` frame. -/
structure InFrame where
  op : String
  guildId : String
  type : String
  track : String
  reason : String
  error : String
  thresholdMs : Int
  code : Int
  byRemote : Bool
  statePosition : Int
  stateTime : Int
deriving DecidableEq, Repr

/-- The typed events the dispatcher delivers to registered subscribers. -/
inductive NodeEvent where
  | statsReceived
  | playerUpdated (guildId : String) (position : Int)
  | trackStarted (guildId : String) (track : Option Lavago.Track)
  | trackEnded (guildId : String) (track : Option Lavago.Track) (reason : TrackEndReason)
  | trackException (guildId : String) (track : Option Lavago.Track) (errorMessage : String)
  | trackStuck (guildId : String) (track : Option Lavago.Track) (thresholdMs : Int)
  | webSocketClosed (guildId : String) (reason : String) (code : Int) (byRemote : Bool)
deriving DecidableEq, Repr

/-- The Go `panic` calls reachable from `socketDataReceived` on a frame that
unmarshalled successfully. -/
inductive PanicMsg where
  /-- panic("*Node.DataReceived: switch.default") — unknown top-level op -/
  | unknownOp
  /-- runtime index-out-of-range panic from `rp.Reason[0]` on an empty reason -/
  | indexOutOfRange
deriving DecidableEq, Repr

/-- Outcome of delivering one inbound frame: a hard stop (Go panic), or
normal completion with the updated player registry and the list of events
delivered to subscribers, in order. -/
inductive DispatchOutcome where
  | panicked (msg : PanicMsg)
  | ok (players : List (String × Player)) (events : List NodeEvent)
deriving DecidableEq, Repr

/-- `Node.socketDataReceived` (node source lines 289-406) on a frame whose
JSON already unmarshalled successfully.  The outer switch dispatches on the
op; its default case panics.  The inner switch of the `event` arm dispatches
on the event type and has no default case, so an unrecognized event type
falls through silently.  Per-arm behaviour mirrors the source, including the
nil-subscriber checks and the `rp.Reason[0]` byte read of the TrackEnd arm
(an index panic on an empty reason string). -/
def Node.socketDataReceived (n : Node) (f : InFrame) : DispatchOutcome :=
  if f.op = "stats" then
    if n.hasStatsReceived = false then DispatchOutcome.ok n.players []
    else DispatchOutcome.ok n.players [NodeEvent.statsReceived]
  else if f.op = "playerUpdate" then
    match syncMapLoad n.players f.guildId with
    | Option.none => DispatchOutcome.ok n.players []
    | some p =>
      let p1 := { p with
        Track := p.Track.map (fun t => t.updatePosition f.statePosition),
        LastUpdate := f.stateTime }
      let players1 := syncMapStore n.players f.guildId p1
      if n.hasPlayerUpdated = false then DispatchOutcome.ok players1 []
      else DispatchOutcome.ok players1 [NodeEvent.playerUpdated f.guildId f.statePosition]
  else if f.op = "event" then
    if f.type = trackStartEvent then
      match syncMapLoad n.players f.guildId with
      | Option.none => DispatchOutcome.ok n.players []
      | some p =>
        let p1 := { p with State := PlayerState.PlayerStatePlaying }
        let players1 := syncMapStore n.players f.guildId p1
        if n.hasTrackStarted = false then DispatchOutcome.ok players1 []
        else DispatchOutcome.ok players1 [NodeEvent.trackStarted f.guildId p1.Track]
    else if f.type = trackEndEvent then
      match syncMapLoad n.players f.guildId with
      | Option.none => DispatchOutcome.ok n.players []
      | some p =>
        let p1 := { p with State := PlayerState.PlayerStateStopped }
        let players1 := syncMapStore n.players f.guildId p1
        if n.hasTrackEnded = false then DispatchOutcome.ok players1 []
        else
          match f.reason.toList with
          | [] => DispatchOutcome.panicked PanicMsg.indexOutOfRange
          | c :: _ =>
            DispatchOutcome.ok players1 [NodeEvent.trackEnded f.guildId p1.Track c]
    else if f.type = trackExceptionEvent then
      match syncMapLoad n.players f.guildId with
      | Option.none => DispatchOutcome.ok n.players []
      | some p =>
        let p1 := { p with State := PlayerState.PlayerStateStopped }
        let players1 := syncMapStore n.players f.guildId p1
        if n.hasTrackException = false then DispatchOutcome.ok players1 []
        else DispatchOutcome.ok players1 [NodeEvent.trackException f.guildId p1.Track f.error]
    else if f.type = trackStuckEvent then
      match syncMapLoad n.players f.guildId with
      | Option.none => DispatchOutcome.ok n.players []
      | some p =>
        let p1 := { p with State := PlayerState.PlayerStateStopped }
        let players1 := syncMapStore n.players f.guildId p1
        if n.hasTrackStuck = false then DispatchOutcome.ok players1 []
        else DispatchOutcome.ok players1 [NodeEvent.trackStuck f.guildId p1.Track f.thresholdMs]
    else if f.type = webSocketClosedEvent then
      if n.hasWebSocketClosed = false then DispatchOutcome.ok n.players []
      else DispatchOutcome.ok n.players
        [NodeEvent.webSocketClosed f.guildId f.reason f.code f.byRemote]
    else DispatchOutcome.ok n.players []
  else DispatchOutcome.panicked PanicMsg.unknownOp

/-! ## Concrete demonstration values used by the closed witnesses -/

/-- A family of distinct transport errors, one per dial attempt. -/
def errDemo : Nat → GoErr := fun i => GoErr.external (toString i)

/-- A dialer that fails on every attempt with `errDemo`. -/
def dialFailDemo : Nat → DialResult := fun i => DialResult.fail (errDemo i)

/-- A demonstration track. -/
def tDemo : Track :=
  { Track := "trackhash",
    Info := { Identifier := "id1", Author := "author", Title := "title", CanSeek := true,
              Length := 300000, IsStream := false, Position := 0, URL := "http",
              SourceName := "yt" } }

/-- A demonstration player for guild g: playing `tDemo`, empty queue. -/
def pDemo : Player :=
  { LastUpdate := 0, State := PlayerState.PlayerStatePlaying, Queue := [],
    Track := some tDemo, GuildID := "g", Volume := 100 }

/-- A demonstration node: connected, one player for guild g, every callback
registered. -/
def nDemo : Node :=
  { connected := true, players := [("g", pDemo)], hasConnectVoice := true,
    hasPlayerUpdated := true, hasStatsReceived := true, hasTrackStarted := true,
    hasTrackEnded := true, hasTrackException := true, hasTrackStuck := true,
    hasWebSocketClosed := true }

/-- A demonstration connected send environment with an empty frame log. -/
def eDemo : SendEnv := { connected := true, sent := [] }

/-- An inbound frame with an unrecognized top-level op. -/
def fBogusOp : InFrame :=
  { op := "bogus", guildId := "g", type := "", track := "", reason := "", error := "",
    thresholdMs := 0, code := 0, byRemote := false, statePosition := 0, stateTime := 0 }

/-- An `event` frame with an unrecognized inner event type. -/
def fUnknownEvent : InFrame :=
  { fBogusOp with op := "event", type := "UnknownKind" }

/-- A TrackEndEvent frame for guild g whose reason begins with the byte F. -/
def fTrackEnd : InFrame :=
  { fBogusOp with op := "event", type := "TrackEndEvent", reason := "FINISHED" }

/-! ## Helper lemmas about the registry -/

theorem syncMapLoad_store_same {α : Type} (m : List (String × α)) (k : String) (v : α) :
    syncMapLoad (syncMapStore m k v) k = some v := by
  simp [syncMapLoad, syncMapStore, List.find?]

theorem syncMapLoad_delete_same {α : Type} (m : List (String × α)) (k : String) :
    syncMapLoad (syncMapDelete m k) k = Option.none := by
  have hf : List.find? (fun kv => kv.1 == k) (syncMapDelete m k) = Option.none := by
    rw [List.find?_eq_none]
    intro x hx
    have hmem := List.of_mem_filter hx
    simp only [bne_iff_ne, ne_eq] at hmem
    simp [hmem]
  rw [syncMapLoad, hf]

/-- `Socket.Send` over a connected socket: no error, the frame is appended
to the log. -/
theorem Socket.Send_connected (e : SendEnv) (data : Frame) (he : e.connected = true) :
    Socket.Send e data = (Option.none, { e with sent := e.sent ++ [data] }) := by
  rw [Socket.Send, if_neg (by simp [he])]

/-! ## Helper lemmas about Socket.Connect -/

/-- When every dial fails, `Connect` starting with `m` attempts of budget left
performs exactly `m` retries, sleeping the growing cumulative intervals, and
surfaces the error of the final dial. -/
theorem Socket.Connect_allfail_aux (cfg : Config) (dial : Nat → DialResult)
    (errf : Nat → GoErr) (hdial : ∀ i, dial i = DialResult.fail (errf i)) :
    ∀ m, m ≤ cfg.ReconnectAttempts → ∀ c r cn,
      Socket.Connect cfg dial c
        { connectionAttempts := cfg.ReconnectAttempts - m, reconnectInterval := r,
          connOpen := false, connected := cn } =
      { outcome := some (errf (c + m)),
        state := { connectionAttempts := cfg.ReconnectAttempts,
                   reconnectInterval := r + m * cfg.ReconnectDelay,
                   connOpen := false, connected := cn },
        sleeps := (List.range m).map fun k => r + (k + 1) * cfg.ReconnectDelay } := by
  intro m
  induction m with
  | zero =>
    intro _ c r cn
    rw [Socket.Connect]
    rw [hdial c]
    simp only [Nat.sub_zero]
    rw [dif_neg (by omega)]
    simp
  | succ m ih =>
    intro hm c r cn
    rw [Socket.Connect]
    rw [hdial c]
    have hstep : cfg.ReconnectAttempts - (m + 1) + 1 = cfg.ReconnectAttempts - m := by omega
    simp only [Bool.false_eq_true, if_false]
    rw [dif_pos (by omega : cfg.ReconnectAttempts - (m + 1) < cfg.ReconnectAttempts)]
    simp only [hstep]
    rw [ih (by omega) (c + 1) (r + cfg.ReconnectDelay) cn]
    have h1 : c + 1 + m = c + (m + 1) := by omega
    have h2 : r + cfg.ReconnectDelay + m * cfg.ReconnectDelay
        = r + (m + 1) * cfg.ReconnectDelay := by ring
    have h3 : (r + cfg.ReconnectDelay) ::
        (List.range m).map (fun k => r + cfg.ReconnectDelay + (k + 1) * cfg.ReconnectDelay)
        = (List.range (m + 1)).map fun k => r + (k + 1) * cfg.ReconnectDelay := by
      rw [List.range_succ_eq_map, List.map_cons, List.map_map]
      have hc : (fun k => r + (k + 1) * cfg.ReconnectDelay) ∘ Nat.succ
          = fun k => r + cfg.ReconnectDelay + (k + 1) * cfg.ReconnectDelay := by
        funext k
        simp only [Function.comp_apply, Nat.succ_eq_add_one]
        ring
      rw [hc]
      have h0 : r + (0 + 1) * cfg.ReconnectDelay = r + cfg.ReconnectDelay := by ring
      rw [h0]
    rw [h1, h2, h3]

/-- `Connect` never decreases the attempt counter or the accumulated backoff
interval, whatever the dialer does. -/
theorem Socket.Connect_monotone (cfg : Config) (dial : Nat → DialResult) :
    ∀ m c s, cfg.ReconnectAttempts - s.connectionAttempts ≤ m →
      s.connectionAttempts ≤ (Socket.Connect cfg dial c s).state.connectionAttempts ∧
      s.reconnectInterval ≤ (Socket.Connect cfg dial c s).state.reconnectInterval := by
  intro m
  induction m with
  | zero =>
    intro c s hm
    rw [Socket.Connect]
    by_cases ho : s.connOpen = true
    · simp [ho]
    · rw [if_neg ho]
      cases hdc : dial c with
      | fail e =>
        dsimp only
        rw [dif_neg (by omega)]
        exact ⟨le_refl _, le_refl _⟩
      | ok v =>
        dsimp only
        cases hv : v.toInt? with
        | none => exact ⟨le_refl _, le_refl _⟩
        | some lver =>
          dsimp only
          by_cases h3 : lver ≠ 3
          · simp [h3]
          · simp [h3]
  | succ m ih =>
    intro c s hm
    rw [Socket.Connect]
    by_cases ho : s.connOpen = true
    · simp [ho]
    · rw [if_neg ho]
      cases hdc : dial c with
      | fail e =>
        dsimp only
        by_cases hlt : s.connectionAttempts < cfg.ReconnectAttempts
        · rw [dif_pos hlt]
          have hrec := ih (c + 1)
            { s with connectionAttempts := s.connectionAttempts + 1,
                     reconnectInterval := s.reconnectInterval + cfg.ReconnectDelay }
            (show cfg.ReconnectAttempts - (s.connectionAttempts + 1) ≤ m by omega)
          exact ⟨le_trans (Nat.le_succ _) hrec.1, le_trans (Nat.le_add_right _ _) hrec.2⟩
        · rw [dif_neg hlt]
          exact ⟨le_refl _, le_refl _⟩
      | ok v =>
        dsimp only
        cases hv : v.toInt? with
        | none => exact ⟨le_refl _, le_refl _⟩
        | some lver =>
          dsimp only
          by_cases h3 : lver ≠ 3
          · simp [h3]
          · simp [h3]

/-- With the attempt budget already exhausted, a failing dial is surfaced
immediately: no retry, no sleep, no state change. -/
theorem Socket.Connect_exhausted (cfg : Config) (dial : Nat → DialResult) (c : Nat)
    (s : SocketState) (e : GoErr) (ho : s.connOpen = false)
    (ha : cfg.ReconnectAttempts ≤ s.connectionAttempts)
    (hd : dial c = DialResult.fail e) :
    Socket.Connect cfg dial c s = { outcome := some e, state := s, sleeps := [] } := by
  rw [Socket.Connect, hd, if_neg (by simp [ho])]
  dsimp only
  rw [dif_neg (by omega)]

/-! ## Claim theorems: socket reconnection (C1, C9) -/

/-- C1: For a socket fresh out of NewSocket with configuration
ReconnectAttempts = N and ReconnectDelay = d, if the transport dial fails on
every attempt then Connect performs exactly N retries after the initial
failed attempt, the k-th retry waiting the strictly increasing interval k*d
(the cumulative sum of the per-attempt delay), and returns the error of the
last dial. -/
theorem connect_retry_schedule (cfg : Config) (dial : Nat → DialResult) (errf : Nat → GoErr)
    (hdial : ∀ i, dial i = DialResult.fail (errf i)) (hpos : 0 < cfg.ReconnectDelay) :
    Socket.Connect cfg dial 0 NewSocketState =
      { outcome := some (errf cfg.ReconnectAttempts),
        state := { connectionAttempts := cfg.ReconnectAttempts,
                   reconnectInterval := cfg.ReconnectAttempts * cfg.ReconnectDelay,
                   connOpen := false, connected := false },
        sleeps := (List.range cfg.ReconnectAttempts).map fun k => (k + 1) * cfg.ReconnectDelay } ∧
    ((List.range cfg.ReconnectAttempts).map fun k => (k + 1) * cfg.ReconnectDelay).length
      = cfg.ReconnectAttempts ∧
    ((List.range cfg.ReconnectAttempts).map fun k => (k + 1) * cfg.ReconnectDelay).Pairwise
      (· < ·) := by
  refine ⟨?_, by simp, ?_⟩
  · have h := Socket.Connect_allfail_aux cfg dial errf hdial cfg.ReconnectAttempts le_rfl 0 0 false
    simpa [NewSocketState] using h
  · rw [List.pairwise_map]
    refine List.Pairwise.imp ?_ (List.pairwise_lt_range _)
    intro a b hab
    exact mul_lt_mul_of_pos_right (by omega) hpos

/-- Witness for C1 at ReconnectAttempts = 2, ReconnectDelay = 5: the dials at
calls 0, 1, 2 all fail, the two retries sleep 5 then 10, and the call
surfaces the error of dial number 2. -/
theorem connect_retry_schedule_witness :
    (∀ i, dialFailDemo i = DialResult.fail (errDemo i)) ∧ 0 < 5 ∧
    (Socket.Connect { ReconnectAttempts := 2, ReconnectDelay := 5 } dialFailDemo 0
        NewSocketState =
      { outcome := some (errDemo 2),
        state := { connectionAttempts := 2, reconnectInterval := 2 * 5,
                   connOpen := false, connected := false },
        sleeps := (List.range 2).map fun k => (k + 1) * 5 } ∧
     ((List.range 2).map fun k => (k + 1) * 5).length = 2 ∧
     ((List.range 2).map fun k => (k + 1) * 5).Pairwise (· < ·)) :=
  ⟨fun _ => rfl, by decide,
   connect_retry_schedule { ReconnectAttempts := 2, ReconnectDelay := 5 } dialFailDemo errDemo
     (fun _ => rfl) (by decide)⟩

/-- C9: the attempt counter and the cumulative backoff interval are never
decreased by Connect; a first call whose dials all fail leaves the counter at
ReconnectAttempts with the accumulated interval, and any later Connect call
on the still-disconnected socket then surfaces its first dial error
immediately with zero retries, zero sleeps and no state change. -/
theorem connect_budget_lifetime (cfg : Config) :
    (∀ dial c s, s.connectionAttempts ≤ (Socket.Connect cfg dial c s).state.connectionAttempts ∧
       s.reconnectInterval ≤ (Socket.Connect cfg dial c s).state.reconnectInterval) ∧
    (∀ (dial : Nat → DialResult) (errf : Nat → GoErr),
       (∀ i, dial i = DialResult.fail (errf i)) →
       (Socket.Connect cfg dial 0 NewSocketState).state =
         { connectionAttempts := cfg.ReconnectAttempts,
           reconnectInterval := cfg.ReconnectAttempts * cfg.ReconnectDelay,
           connOpen := false, connected := false }) ∧
    (∀ (dial2 : Nat → DialResult) (c : Nat) (s : SocketState) (e : GoErr),
       s.connOpen = false → cfg.ReconnectAttempts ≤ s.connectionAttempts →
       dial2 c = DialResult.fail e →
       Socket.Connect cfg dial2 c s = { outcome := some e, state := s, sleeps := [] }) := by
  refine ⟨fun dial c s =>
    Socket.Connect_monotone cfg dial (cfg.ReconnectAttempts - s.connectionAttempts) c s le_rfl,
    ?_, ?_⟩
  · intro dial errf hdial
    have h := Socket.Connect_allfail_aux cfg dial errf hdial cfg.ReconnectAttempts le_rfl 0 0 false
    have h2 := congrArg ConnectResult.state h
    simpa [NewSocketState] using h2
  · intro dial2 c s e ho ha hd
    exact Socket.Connect_exhausted cfg dial2 c s e ho ha hd

/-- Witness for C9 at ReconnectAttempts = 1, ReconnectDelay = 4: the first
exhausting call ends with the counter at 1, and a second call on the
resulting disconnected state returns the error of its first dial with no
sleeps and no state change. -/
theorem connect_budget_lifetime_witness :
    (∀ i, dialFailDemo i = DialResult.fail (errDemo i)) ∧
    (Socket.Connect { ReconnectAttempts := 1, ReconnectDelay := 4 } dialFailDemo 0
        NewSocketState).state =
      { connectionAttempts := 1, reconnectInterval := 1 * 4,
        connOpen := false, connected := false } ∧
    Socket.Connect { ReconnectAttempts := 1, ReconnectDelay := 4 } dialFailDemo 0
        { connectionAttempts := 1, reconnectInterval := 4, connOpen := false, connected := false } =
      { outcome := some (errDemo 0),
        state := { connectionAttempts := 1, reconnectInterval := 4,
                   connOpen := false, connected := false },
        sleeps := [] } :=
  ⟨fun _ => rfl,
   (connect_budget_lifetime { ReconnectAttempts := 1, ReconnectDelay := 4 }).2.1
     dialFailDemo errDemo (fun _ => rfl),
   (connect_budget_lifetime { ReconnectAttempts := 1, ReconnectDelay := 4 }).2.2
     dialFailDemo 0
     { connectionAttempts := 1, reconnectInterval := 4, connOpen := false, connected := false }
     (errDemo 0) rfl (by decide) rfl⟩

/-! ## Helper lemmas about Node.Join and Node.Leave -/

/-- Join when a player already exists for the guild: it is returned
unchanged, the voice collaborator is not invoked, the node is untouched. -/
theorem Node.Join_existing (n : Node) (g vc : String) (cv : Option GoErr) (p : Player)
    (hc : n.connected = true) (hvc : vc ≠ "")
    (hload : syncMapLoad n.players g = some p) :
    Node.Join n g vc cv =
      { player := some p, err := Option.none, node := n, voiceInvoked := false } := by
  unfold Node.Join
  rw [if_neg (by simp [hc]), if_neg hvc, hload]

/-- Join when no player exists and the voice collaborator (when registered)
succeeds: a fresh player is created and stored. -/
theorem Node.Join_fresh (n : Node) (g vc : String)
    (hc : n.connected = true) (hvc : vc ≠ "")
    (hload : syncMapLoad n.players g = Option.none) :
    Node.Join n g vc Option.none =
      { player := some (NewPlayer g), err := Option.none,
        node := { n with players := syncMapStore n.players g (NewPlayer g) },
        voiceInvoked := n.hasConnectVoice } := by
  unfold Node.Join
  rw [if_neg (by simp [hc]), if_neg hvc, hload]
  dsimp only
  by_cases hv : n.hasConnectVoice = true
  · simp [hv]
  · simp [Bool.not_eq_true] at hv
    simp [hv]

/-- Join when no player exists and the registered voice collaborator fails:
the error is surfaced and nothing is stored. -/
theorem Node.Join_voicefail (n : Node) (g vc : String) (er : GoErr)
    (hc : n.connected = true) (hvc : vc ≠ "")
    (hload : syncMapLoad n.players g = Option.none) (hv : n.hasConnectVoice = true) :
    Node.Join n g vc (some er) =
      { player := Option.none, err := some er, node := n, voiceInvoked := true } := by
  unfold Node.Join
  rw [if_neg (by simp [hc]), if_neg hvc, hload]
  dsimp only
  rw [if_pos hv]

/-- Join when no player exists and no voice collaborator is registered: a
fresh player is created and stored whatever the collaborator result would
have been. -/
theorem Node.Join_fresh_novoice (n : Node) (g vc : String) (cv : Option GoErr)
    (hc : n.connected = true) (hvc : vc ≠ "")
    (hload : syncMapLoad n.players g = Option.none) (hv : n.hasConnectVoice = false) :
    Node.Join n g vc cv =
      { player := some (NewPlayer g), err := Option.none,
        node := { n with players := syncMapStore n.players g (NewPlayer g) },
        voiceInvoked := false } := by
  unfold Node.Join
  rw [if_neg (by simp [hc]), if_neg hvc, hload]
  dsimp only
  rw [if_neg (by simp [hv])]

/-- Leave with a registered player: it is closed — a stop frame then a
destroy frame go out — and its registry entry is deleted, with no error over
a connected socket. -/
theorem Node.Leave_found (n : Node) (g : String) (e : SendEnv) (p : Player)
    (hc : n.connected = true) (he : e.connected = true)
    (hload : syncMapLoad n.players g = some p) :
    Node.Leave n g e =
      (Option.none, { n with players := syncMapDelete n.players g },
       { e with sent := e.sent ++
           [playerStopPayload.marshal { Op := "stop", GuildID := p.GuildID },
            playerDestroyPayload.marshal { Op := "destroy", GuildID := p.GuildID }] }) := by
  unfold Node.Leave
  rw [if_neg (by simp [hc]), hload]
  dsimp only
  unfold Player.Close Player.Stop
  dsimp only
  rw [Socket.Send_connected e _ he]
  dsimp only
  rw [Socket.Send_connected]
  · dsimp only
    rw [List.append_assoc]
    rfl
  · exact he

/-! ## Claim theorems: frame dispatch (C2, C3) -/

/-- C2 counterexample: an `event` frame with the unrecognized inner type
SomeFutureEvent is not treated as fatal: the handler returns normally,
changes no player and delivers no event, even with every subscriber
registered — refuting fatality at the inner discriminator level. -/
theorem dispatch_unknown_inner_silent :
    Node.socketDataReceived
      { connected := true,
        players := [("guild1", NewPlayer "guild1")],
        hasConnectVoice := true, hasPlayerUpdated := true, hasStatsReceived := true,
        hasTrackStarted := true, hasTrackEnded := true, hasTrackException := true,
        hasTrackStuck := true, hasWebSocketClosed := true }
      { op := "event", guildId := "guild1", type := "SomeFutureEvent", track := "",
        reason := "", error := "", thresholdMs := 0, code := 0, byRemote := false,
        statePosition := 0, stateTime := 0 } =
      DispatchOutcome.ok [("guild1", NewPlayer "guild1")] [] := by
  rfl

/-- C2 (amended): unknown discriminators are fatal only at the top level: an
unrecognized op hard-stops with the switch-default panic, while an `event`
frame with an unrecognized inner event type is silently ignored — no panic,
no player change, no event delivered. -/
theorem dispatch_unknown_discriminators (n : Node) (f : InFrame) :
    (f.op ≠ "stats" → f.op ≠ "playerUpdate" → f.op ≠ "event" →
      Node.socketDataReceived n f = DispatchOutcome.panicked PanicMsg.unknownOp) ∧
    (f.op = "event" → f.type ≠ trackStartEvent → f.type ≠ trackEndEvent →
      f.type ≠ trackExceptionEvent → f.type ≠ trackStuckEvent →
      f.type ≠ webSocketClosedEvent →
      Node.socketDataReceived n f = DispatchOutcome.ok n.players []) := by
  constructor
  · intro h1 h2 h3
    unfold Node.socketDataReceived
    rw [if_neg h1, if_neg h2, if_neg h3]
  · intro h1 h2 h3 h4 h5 h6
    unfold Node.socketDataReceived
    rw [if_neg (by rw [h1]; decide), if_neg (by rw [h1]; decide), if_pos h1,
       if_neg h2, if_neg h3, if_neg h4, if_neg h5, if_neg h6]

/-- Witness for the amended C2: the concrete op `bogus` panics, and the
concrete event type `UnknownKind` is silently ignored on a node with a
player and all subscribers registered. -/
theorem dispatch_unknown_discriminators_witness :
    Node.socketDataReceived nDemo fBogusOp = DispatchOutcome.panicked PanicMsg.unknownOp ∧
    Node.socketDataReceived nDemo fUnknownEvent = DispatchOutcome.ok nDemo.players [] :=
  ⟨(dispatch_unknown_discriminators nDemo fBogusOp).1 (by decide) (by decide) (by decide),
   (dispatch_unknown_discriminators nDemo fUnknownEvent).2 rfl (by decide) (by decide)
     (by decide) (by decide) (by decide)⟩

/-- C3: an `event` frame of type TrackEndEvent whose reason begins with the
byte F, addressed to a guild with a registered Player, stores that Player
back with state Stopped; with a TrackEnded subscriber registered exactly one
TrackEnded event with reason Finished is delivered, and with none registered
no event is delivered. -/
theorem dispatch_trackend_finished (n : Node) (f : InFrame) (p : Player) (rest : List Char)
    (hop : f.op = "event") (hty : f.type = trackEndEvent)
    (hload : syncMapLoad n.players f.guildId = some p)
    (hreason : f.reason.toList = 'F' :: rest) :
    Node.socketDataReceived n f =
      DispatchOutcome.ok
        (syncMapStore n.players f.guildId { p with State := PlayerState.PlayerStateStopped })
        (if n.hasTrackEnded then
          [NodeEvent.trackEnded f.guildId p.Track FinishedReason] else []) ∧
    syncMapLoad
        (syncMapStore n.players f.guildId { p with State := PlayerState.PlayerStateStopped })
        f.guildId = some { p with State := PlayerState.PlayerStateStopped } := by
  refine ⟨?_, syncMapLoad_store_same _ _ _⟩
  unfold Node.socketDataReceived
  rw [if_neg (by rw [hop]; decide), if_neg (by rw [hop]; decide), if_pos hop,
     if_neg (by rw [hty]; decide), if_pos hty, hload]
  dsimp only
  by_cases he : n.hasTrackEnded = true
  · rw [if_neg (by simp [he]), hreason]
    dsimp only
    rw [if_pos he]
    rfl
  · simp only [Bool.not_eq_true] at he
    rw [if_pos (by simp [he]), if_neg (by simp [he])]

/-- Witness for C3: on the demo node (subscriber registered) a TrackEndEvent
frame for guild g with reason FINISHED stops the player and delivers one
Finished TrackEnded event. -/
theorem dispatch_trackend_finished_witness :
    Node.socketDataReceived nDemo fTrackEnd =
      DispatchOutcome.ok
        (syncMapStore nDemo.players fTrackEnd.guildId
          { pDemo with State := PlayerState.PlayerStateStopped })
        [NodeEvent.trackEnded fTrackEnd.guildId pDemo.Track FinishedReason] ∧
    syncMapLoad
        (syncMapStore nDemo.players fTrackEnd.guildId
          { pDemo with State := PlayerState.PlayerStateStopped })
        fTrackEnd.guildId = some { pDemo with State := PlayerState.PlayerStateStopped } :=
  dispatch_trackend_finished nDemo fTrackEnd pDemo "INISHED".toList rfl rfl rfl rfl

/-! ## Claim theorems: Player.Play volume range (C4) -/

/-- C4 counterexample: Play with volume -1 returns the range error and sends
nothing, but the player state has already been mutated before the check: a
Stopped player becomes Playing. -/
theorem play_volume_state_mutation :
    Player.Play
      { LastUpdate := 0, State := PlayerState.PlayerStateStopped, Queue := [],
        Track := Option.none, GuildID := "g", Volume := 7 }
      { Track := some tDemo, NoReplace := false, Volume := -1, ShouldPause := false,
        StartTime := 0, EndTime := 0 }
      { connected := true, sent := [] } =
      (some GoErr.volumeUnder,
       { LastUpdate := 0, State := PlayerState.PlayerStatePlaying, Queue := [],
         Track := Option.none, GuildID := "g", Volume := 7 },
       { connected := true, sent := [] }) ∧
    PlayerState.PlayerStatePlaying ≠ PlayerState.PlayerStateStopped :=
  ⟨rfl, by decide⟩

/-- C4 (amended): with a non-nil track and volume outside [0, 1000], Play
fails with the matching range error, sends no frame and leaves track and
volume unchanged, but the state has already been set to Paused or Playing
per the pause flag; with volume in [0, 1000] (in particular 0 and 1000) the
range check passes and, over a connected socket, the play frame is sent. -/
theorem play_volume_range (p : Player) (args : PlayArgs) (e : SendEnv) (tr : Track)
    (htr : args.Track = some tr) :
    ((args.Volume < 0 ∨ 1000 < args.Volume) →
      Player.Play p args e =
        (some (if args.Volume < 0 then GoErr.volumeUnder else GoErr.volumeOver),
         { p with State := if args.ShouldPause then PlayerState.PlayerStatePaused
                           else PlayerState.PlayerStatePlaying },
         e)) ∧
    (0 ≤ args.Volume → args.Volume ≤ 1000 → e.connected = true →
      Player.Play p args e =
        (Option.none,
         { p with State := (if args.ShouldPause then PlayerState.PlayerStatePaused
                            else PlayerState.PlayerStatePlaying),
                  Volume := args.Volume, Track := some tr },
         { e with sent := e.sent ++ [playerPlayPayload.marshal
             { Op := "play", GuildID := p.GuildID, Track := tr.Track,
               NoReplace := args.NoReplace, StartTime := args.StartTime,
               EndTime := args.EndTime, Volume := args.Volume,
               Pause := args.ShouldPause }] })) := by
  constructor
  · intro hv
    unfold Player.Play
    rw [htr]
    dsimp only
    rcases lt_or_le args.Volume 0 with h | h
    · rw [if_pos h, if_pos h]
    · have h2 : ¬ args.Volume < 0 := not_lt.mpr h
      have h3 : args.Volume > 1000 := hv.resolve_left h2
      rw [if_neg h2, if_pos h3, if_neg h2]
  · intro h0 h1000 he
    unfold Player.Play
    rw [htr]
    dsimp only
    rw [if_neg (by omega), if_neg (by omega)]
    rw [Socket.Send_connected e _ he]

/-- Witness for the amended C4: volume -1 on a fresh player yields the lower
range error with the state already moved to Playing and nothing sent, while
volume 1000 passes the check and sends the play frame. -/
theorem play_volume_range_witness :
    (Player.Play (NewPlayer "g")
        { Track := some tDemo, NoReplace := false, Volume := -1, ShouldPause := false,
          StartTime := 0, EndTime := 0 } eDemo =
      (some GoErr.volumeUnder,
       { NewPlayer "g" with State := PlayerState.PlayerStatePlaying }, eDemo)) ∧
    (Player.Play (NewPlayer "g")
        { Track := some tDemo, NoReplace := false, Volume := 1000, ShouldPause := false,
          StartTime := 0, EndTime := 0 } eDemo =
      (Option.none,
       { NewPlayer "g" with State := PlayerState.PlayerStatePlaying,
                            Volume := 1000, Track := some tDemo },
       { eDemo with sent := eDemo.sent ++ [playerPlayPayload.marshal
           { Op := "play", GuildID := "g", Track := tDemo.Track, NoReplace := false,
             StartTime := 0, EndTime := 0, Volume := 1000, Pause := false }] })) :=
  ⟨(play_volume_range (NewPlayer "g")
      { Track := some tDemo, NoReplace := false, Volume := -1, ShouldPause := false,
        StartTime := 0, EndTime := 0 } eDemo tDemo rfl).1 (Or.inl (by decide)),
   (play_volume_range (NewPlayer "g")
      { Track := some tDemo, NoReplace := false, Volume := 1000, ShouldPause := false,
        StartTime := 0, EndTime := 0 } eDemo tDemo rfl).2 (by decide) (by decide) rfl⟩

/-! ## Claim theorem: UpdateVolume frame keys (C5) -/

/-- C5: UpdateVolume(50) over a connected socket unconditionally stores the
volume locally and sends one frame of op `volume`; but that frame carries the
value under the JSON key `position` — the tag on the Volume field of
playerVolumePayload — and contains no `volume` key at all. -/
theorem updateVolume_position_key :
    Player.UpdateVolume (NewPlayer "g") 50 { connected := true, sent := [] } =
      (Option.none, { NewPlayer "g" with Volume := 50 },
       { connected := true,
         sent := [[("op", JVal.str "volume"), ("guildId", JVal.str "g"),
                   ("position", JVal.int 50)]] }) ∧
    ([("op", JVal.str "volume"), ("guildId", JVal.str "g"),
      ("position", JVal.int 50)].map Prod.fst) = ["op", "guildId", "position"] ∧
    "volume" ∉ ["op", "guildId", "position"] :=
  ⟨rfl, rfl, by decide⟩

/-! ## Claim theorems: Join idempotence and Leave (C6, C8) -/

/-- C6: on a connected node with a non-empty voice channel, after a first
successful Join for a guild, a second Join for the same guild returns the
very player of the first call, reports no error, does not invoke the voice
collaborator, and leaves the node — in particular the player registry —
unchanged. -/
theorem join_idempotent (n : Node) (g vc : String) (cv1 cv2 : Option GoErr)
    (hc : n.connected = true) (hvc : vc ≠ "")
    (h1 : (Node.Join n g vc cv1).err = Option.none) :
    (Node.Join (Node.Join n g vc cv1).node g vc cv2).player
      = (Node.Join n g vc cv1).player ∧
    (Node.Join (Node.Join n g vc cv1).node g vc cv2).node
      = (Node.Join n g vc cv1).node ∧
    (Node.Join (Node.Join n g vc cv1).node g vc cv2).voiceInvoked = false ∧
    (Node.Join (Node.Join n g vc cv1).node g vc cv2).err = Option.none := by
  cases hl : syncMapLoad n.players g with
  | some p =>
    rw [Node.Join_existing n g vc cv1 p hc hvc hl]
    dsimp only
    rw [Node.Join_existing n g vc cv2 p hc hvc hl]
    exact ⟨rfl, rfl, rfl, rfl⟩
  | none =>
    by_cases hv : n.hasConnectVoice = true
    · cases cv1 with
      | none =>
        rw [Node.Join_fresh n g vc hc hvc hl]
        dsimp only
        rw [Node.Join_existing { n with players := syncMapStore n.players g (NewPlayer g) }
            g vc cv2 (NewPlayer g) hc hvc (syncMapLoad_store_same n.players g (NewPlayer g))]
        exact ⟨rfl, rfl, rfl, rfl⟩
      | some er =>
        rw [Node.Join_voicefail n g vc er hc hvc hl hv] at h1
        simp at h1
    · simp only [Bool.not_eq_true] at hv
      rw [Node.Join_fresh_novoice n g vc cv1 hc hvc hl hv]
      dsimp only
      rw [Node.Join_existing { n with players := syncMapStore n.players g (NewPlayer g) }
          g vc cv2 (NewPlayer g) hc hvc (syncMapLoad_store_same n.players g (NewPlayer g))]
      exact ⟨rfl, rfl, rfl, rfl⟩

/-- Witness for C6 at guild g2 (no player yet) on the demo node: the second
Join returns the player of the first, invokes nothing and changes nothing. -/
theorem join_idempotent_witness :
    nDemo.connected = true ∧ "vchan" ≠ "" ∧
    (Node.Join nDemo "g2" "vchan" Option.none).err = Option.none ∧
    ((Node.Join (Node.Join nDemo "g2" "vchan" Option.none).node "g2" "vchan"
        Option.none).player = (Node.Join nDemo "g2" "vchan" Option.none).player ∧
     (Node.Join (Node.Join nDemo "g2" "vchan" Option.none).node "g2" "vchan"
        Option.none).node = (Node.Join nDemo "g2" "vchan" Option.none).node ∧
     (Node.Join (Node.Join nDemo "g2" "vchan" Option.none).node "g2" "vchan"
        Option.none).voiceInvoked = false ∧
     (Node.Join (Node.Join nDemo "g2" "vchan" Option.none).node "g2" "vchan"
        Option.none).err = Option.none) :=
  ⟨rfl, by decide, rfl,
   join_idempotent nDemo "g2" "vchan" Option.none Option.none rfl (by decide) rfl⟩

/-- C8: on a connected node, Leave for a guild with no registered player
returns no error and changes nothing; and after a successful Join, Leave
reports no error, removes the guild from the registry, and a subsequent Join
creates and returns a fresh player whose state is None. -/
theorem leave_noop_and_fresh_join (n : Node) (g vc : String) (e : SendEnv)
    (hc : n.connected = true) (he : e.connected = true) (hvc : vc ≠ "") :
    (syncMapLoad n.players g = Option.none → Node.Leave n g e = (Option.none, n, e)) ∧
    ((Node.Join n g vc Option.none).err = Option.none →
      ((Node.Leave (Node.Join n g vc Option.none).node g e).1 = Option.none ∧
       syncMapLoad ((Node.Leave (Node.Join n g vc Option.none).node g e).2.1).players g
         = Option.none ∧
       (Node.Join ((Node.Leave (Node.Join n g vc Option.none).node g e).2.1) g vc
           Option.none).player = some (NewPlayer g) ∧
       (NewPlayer g).State = PlayerState.PlayerStateNone)) := by
  constructor
  · intro hl
    unfold Node.Leave
    rw [if_neg (by simp [hc]), hl]
  · intro _hok
    cases hl : syncMapLoad n.players g with
    | some p =>
      rw [Node.Join_existing n g vc Option.none p hc hvc hl]
      dsimp only
      rw [Node.Leave_found n g e p hc he hl]
      dsimp only
      refine ⟨rfl, syncMapLoad_delete_same _ _, ?_, rfl⟩
      rw [Node.Join_fresh { n with players := syncMapDelete n.players g } g vc hc hvc
          (syncMapLoad_delete_same n.players g)]
    | none =>
      rw [Node.Join_fresh n g vc hc hvc hl]
      dsimp only
      rw [Node.Leave_found { n with players := syncMapStore n.players g (NewPlayer g) } g e
          (NewPlayer g) hc he (syncMapLoad_store_same n.players g (NewPlayer g))]
      dsimp only
      refine ⟨rfl, syncMapLoad_delete_same _ _, ?_, rfl⟩
      rw [Node.Join_fresh
          { n with players := syncMapDelete (syncMapStore n.players g (NewPlayer g)) g }
          g vc hc hvc (syncMapLoad_delete_same (syncMapStore n.players g (NewPlayer g)) g)]

/-- Witness for C8 at guild g3 (no player) on the demo node with a connected
socket: Leave is a silent no-op, and Join-Leave-Join produces a fresh player
with state None. -/
theorem leave_noop_and_fresh_join_witness :
    (Node.Leave nDemo "g3" eDemo = (Option.none, nDemo, eDemo)) ∧
    ((Node.Leave (Node.Join nDemo "g3" "vchan" Option.none).node "g3" eDemo).1
        = Option.none ∧
     syncMapLoad ((Node.Leave (Node.Join nDemo "g3" "vchan" Option.none).node "g3"
        eDemo).2.1).players "g3" = Option.none ∧
     (Node.Join ((Node.Leave (Node.Join nDemo "g3" "vchan" Option.none).node "g3"
        eDemo).2.1) "g3" "vchan" Option.none).player = some (NewPlayer "g3") ∧
     (NewPlayer "g3").State = PlayerState.PlayerStateNone) :=
  ⟨(leave_noop_and_fresh_join nDemo "g3" "vchan" eDemo rfl rfl (by decide)).1 rfl,
   (leave_noop_and_fresh_join nDemo "g3" "vchan" eDemo rfl rfl (by decide)).2 rfl⟩

/-! ## Claim theorem: Skip on an empty queue (C7) -/

/-- C7: Skip on a player whose state is not None and whose queue is empty
transitions the state to Stopped, returns a nil next track and, over a
connected socket, no error; the only frame sent is the stop command. -/
theorem skip_empty_queue (p : Player) (delay : Int) (e : SendEnv)
    (hs : p.State ≠ PlayerState.PlayerStateNone) (hq : p.Queue = [])
    (he : e.connected = true) :
    Player.Skip p delay e =
      (p.Track, Option.none, Option.none,
       { p with State := PlayerState.PlayerStateStopped },
       { e with sent := e.sent ++
           [playerStopPayload.marshal { Op := "stop", GuildID := p.GuildID }] }) := by
  unfold Player.Skip
  rw [if_neg hs, hq]
  dsimp only
  unfold Player.Stop
  dsimp only
  rw [Socket.Send_connected e _ he, hq]

/-- Witness for C7: a stopped player with a loaded track and empty queue,
skipped over a connected socket, ends Stopped having sent one stop frame and
returning no next track and no error. -/
theorem skip_empty_queue_witness :
    Player.Skip { LastUpdate := 0, State := PlayerState.PlayerStateStopped, Queue := [],
                  Track := some tDemo, GuildID := "g", Volume := 100 } 0 eDemo =
      (some tDemo, Option.none, Option.none,
       { LastUpdate := 0, State := PlayerState.PlayerStateStopped, Queue := [],
         Track := some tDemo, GuildID := "g", Volume := 100 },
       { eDemo with sent := eDemo.sent ++
           [playerStopPayload.marshal { Op := "stop", GuildID := "g" }] }) :=
  skip_empty_queue
    { LastUpdate := 0, State := PlayerState.PlayerStateStopped, Queue := [],
      Track := some tDemo, GuildID := "g", Volume := 100 } 0 eDemo
    (by decide) rfl rfl

/-! ## Claim theorem: Seek with a nil current track (C10) -/

/-- C10: Seek on a player whose state is not None but whose current track is
nil reads the track with no nil guard: the outcome is the runtime nil
dereference, not a typed error; the configuration is reachable, since Pause
on such a player sets the state to Stopped while leaving the track nil. -/
theorem seek_nil_track (p : Player) (position : Int) (e : SendEnv)
    (hs : p.State ≠ PlayerState.PlayerStateNone) (ht : p.Track = Option.none) :
    Player.Seek p position e = (SeekOutcome.nilDeref, p, e) ∧
    (Player.Pause p e).2.1.State = PlayerState.PlayerStateStopped ∧
    (Player.Pause p e).2.1.Track = Option.none := by
  refine ⟨?_, ?_, ?_⟩
  · unfold Player.Seek
    rw [if_neg hs, ht]
  · unfold Player.Pause
    rw [if_neg hs]
    dsimp only
    rw [if_pos ht]
  · unfold Player.Pause
    rw [if_neg hs]
    dsimp only
    exact ht

/-- Witness for C10: a Stopped player with no track — exactly what Pause
produces on a trackless non-None player — hits the nil dereference on
Seek(1000). -/
theorem seek_nil_track_witness :
    Player.Seek { LastUpdate := 0, State := PlayerState.PlayerStateStopped, Queue := [],
                  Track := Option.none, GuildID := "g", Volume := 0 } 1000 eDemo =
      (SeekOutcome.nilDeref,
       { LastUpdate := 0, State := PlayerState.PlayerStateStopped, Queue := [],
         Track := Option.none, GuildID := "g", Volume := 0 }, eDemo) ∧
    (Player.Pause { LastUpdate := 0, State := PlayerState.PlayerStateStopped, Queue := [],
                    Track := Option.none, GuildID := "g", Volume := 0 }
        eDemo).2.1.State = PlayerState.PlayerStateStopped ∧
    (Player.Pause { LastUpdate := 0, State := PlayerState.PlayerStateStopped, Queue := [],
                    Track := Option.none, GuildID := "g", Volume := 0 }
        eDemo).2.1.Track = Option.none :=
  seek_nil_track
    { LastUpdate := 0, State := PlayerState.PlayerStateStopped, Queue := [],
      Track := Option.none, GuildID := "g", Volume := 0 } 1000 eDemo
    (by decide) rfl

end Lavago
